import Mathlib

/-!
Verification of the text-buffer subsystem of the fltk-rs binding
(src/src/text.rs).  The Rust wrapper methods are embedded as Lean
functions over an explicit buffer state; the native toolkit entry points
(Fl_Text_Buffer_*) that live outside this repository are modelled from
the specification's description of their contracts.  A panicking Rust
path (an unwrap that fails) is modelled as the Option value none.
-/

namespace Fltk

/-- A modify-callback event: (position, inserted, deleted, restyled, deleted text),
as in the spec's callback interface. -/
structure ModifyEvent where
  pos : Nat
  nInserted : Nat
  nDeleted : Nat
  nRestyled : Nat
  deletedText : List Char
deriving Repr, DecidableEq

/-- State of the native text buffer behind the wrapper's opaque pointer.
`callbacks` holds registered modify listeners as (shim function address,
context data pointer) pairs, matching the toolkit's registration mechanism
with stable opaque context pointers.  `fired` records, for each mutation
notification, the event together with the listener list it was delivered
to (in registration order). -/
structure TextBuffer where
  content : List Char
  selection : Option (Nat × Nat)
  highlight : Option (Nat × Nat)
  undoEnabled : Bool
  undoState : Option (List Char)
  callbacks : List (Nat × Nat)
  fired : List (ModifyEvent × List (Nat × Nat))
deriving Repr, DecidableEq

/-- The NUL character, which terminates C strings. -/
def nulChar : Char := Char.ofNat 0

/-- Model of Rust's CString::new: fails exactly when the string contains an
interior NUL byte.  The wrappers in text.rs call .unwrap() on the result,
so a NUL-carrying argument makes the wrapper panic. -/
def cstringNew (s : List Char) : Option (List Char) :=
  if nulChar ∈ s then none else some s

/-- Reading a C string back into Rust stops at the first NUL byte
(CStr / to_string_lossy semantics). -/
def cstringRead (s : List Char) : List Char :=
  s.takeWhile (fun c => c ≠ nulChar)

/-- Deliver a mutation event to every currently registered listener:
append the event, paired with the listener list at fire time, to the log. -/
def fireModify (b : TextBuffer) (e : ModifyEvent) : TextBuffer :=
  { b with fired := b.fired ++ [(e, b.callbacks)] }

/-- Modelled from the spec: buffer allocation primitive; a fresh buffer is
empty, with no selection, no highlight and no registered listeners.  The
spec's undo contract ("undo_enabled must have been set") makes undo
tracking initially disabled. -/
def Fl_Text_Buffer_new : TextBuffer :=
  { content := [], selection := none, highlight := none, undoEnabled := false,
    undoState := none, callbacks := [], fired := [] }

/-- Modelled from the spec: replaces the entire content and fires the
modify listeners with a full-range change (all old text deleted, all new
text inserted at position 0).  A mutation records the previous content as
the undo state when undo tracking is enabled. -/
def Fl_Text_Buffer_set_text (b : TextBuffer) (s : List Char) : TextBuffer :=
  fireModify
    { b with content := s,
             undoState := if b.undoEnabled then some b.content else b.undoState }
    ⟨0, s.length, b.content.length, 0, b.content⟩

/-- Modelled from the spec: returns the full content (as a C string). -/
def Fl_Text_Buffer_text (b : TextBuffer) : List Char :=
  b.content

/-- Modelled from the spec: the buffer length. -/
def Fl_Text_Buffer_length (b : TextBuffer) : Nat :=
  b.content.length

/-- Modelled from the spec: deletes the range [start, end), fires the
listeners with the deleted text. -/
def Fl_Text_Buffer_remove (b : TextBuffer) (st en : Nat) : TextBuffer :=
  fireModify
    { b with content := b.content.take st ++ b.content.drop en,
             undoState := if b.undoEnabled then some b.content else b.undoState }
    ⟨st, 0, en - st, 0, (b.content.drop st).take (en - st)⟩

/-- Modelled from the spec: inserts the text at pos and fires the listeners. -/
def Fl_Text_Buffer_insert (b : TextBuffer) (pos : Nat) (s : List Char) : TextBuffer :=
  fireModify
    { b with content := b.content.take pos ++ s ++ b.content.drop pos,
             undoState := if b.undoEnabled then some b.content else b.undoState }
    ⟨pos, s.length, 0, 0, []⟩

/-- Modelled from the spec: removes [start, end), inserts the text at start,
and fires a single listener notification for the combined change. -/
def Fl_Text_Buffer_replace (b : TextBuffer) (st en : Nat) (s : List Char) : TextBuffer :=
  fireModify
    { b with content := b.content.take st ++ s ++ b.content.drop en,
             undoState := if b.undoEnabled then some b.content else b.undoState }
    ⟨st, s.length, en - st, 0, (b.content.drop st).take (en - st)⟩

/-- Modelled from the spec: copies src[start, end) into the destination at
position to, firing listeners on the destination only. -/
def Fl_Text_Buffer_copy (dst src : TextBuffer) (st en toPos : Nat) : TextBuffer :=
  fireModify
    { dst with content := dst.content.take toPos ++ (src.content.drop st).take (en - st)
                            ++ dst.content.drop toPos,
               undoState := if dst.undoEnabled then some dst.content else dst.undoState }
    ⟨toPos, ((src.content.drop st).take (en - st)).length, 0, 0, []⟩

/-- Modelled from the spec: the undo primitive returns 0 (failure) when
undo tracking is disabled or no undo state is available; otherwise it
reverts the content to the saved state, saves the current content in its
place, and returns nonzero. -/
def Fl_Text_Buffer_undo (b : TextBuffer) : Nat × TextBuffer :=
  if b.undoEnabled then
    match b.undoState with
    | some c => (1, { b with content := c, undoState := some b.content })
    | none => (0, b)
  else (0, b)

/-- Modelled from the spec: enables or disables undo tracking. -/
def Fl_Text_Buffer_canUndo (b : TextBuffer) (flag : Bool) : TextBuffer :=
  { b with undoEnabled := flag }

/-- Modelled from the spec: the toolkit file loader reads the path as raw
text; it reports 0 on a toolkit load failure and otherwise replaces the
content with the file's text.  The file system is passed explicitly as a
map from path names to file contents. -/
def Fl_Text_Buffer_loadfile (b : TextBuffer) (path : List Char)
    (fs : List Char → Option (List Char)) : Nat × TextBuffer :=
  match fs path with
  | none => (0, b)
  | some txt => (1, Fl_Text_Buffer_set_text b txt)

/-- Modelled from the spec: sets the selection range. -/
def Fl_Text_Buffer_select (b : TextBuffer) (st en : Nat) : TextBuffer :=
  { b with selection := some (st, en) }

/-- Modelled from the spec: clears the selection. -/
def Fl_Text_Buffer_unselect (b : TextBuffer) : TextBuffer :=
  { b with selection := none }

/-- A C int out-parameter: either the null pointer or a cell holding a value. -/
inductive CPtr where
  | nullPtr : CPtr
  | cell (v : Nat) : CPtr
deriving Repr, DecidableEq

/-- Writing through a pointer: writing through the null pointer is
undefined behavior, modelled as none (crash). -/
def writeCell : CPtr → Nat → Option CPtr
  | CPtr.nullPtr, _ => none
  | CPtr.cell _, v => some (CPtr.cell v)

/-- Reading through a pointer: reading the null pointer is undefined
behavior, modelled as none (crash). -/
def readCell : CPtr → Option Nat
  | CPtr.nullPtr => none
  | CPtr.cell v => some v

/-- Modelled from the spec: when a selection exists, the primitive writes
its bounds through the two out-pointers and returns 1; with no selection
it returns 0 without writing.  Writing through a null out-pointer crashes
(none). -/
def Fl_Text_Buffer_selection_position (b : TextBuffer) (ps pe : CPtr) :
    Option (Nat × CPtr × CPtr) :=
  match b.selection with
  | none => some (0, ps, pe)
  | some (s, e) =>
    match writeCell ps s with
    | none => none
    | some ps' =>
      match writeCell pe e with
      | none => none
      | some pe' => some (1, ps', pe')

/-- Modelled from the spec: the toolkit registers the (callback, context)
pair; listeners are kept in registration order. -/
def Fl_Text_Buffer_add_modify_callback (b : TextBuffer) (cb dataPtr : Nat) : TextBuffer :=
  { b with callbacks := b.callbacks ++ [(cb, dataPtr)] }

/-- Modelled from the spec: the toolkit unregisters exactly the entries
equal to the given (callback, context) pair; the context pointers are
stable opaque identities, so a non-matching pair removes nothing. -/
def Fl_Text_Buffer_remove_modify_callback (b : TextBuffer) (cb dataPtr : Nat) : TextBuffer :=
  { b with callbacks := b.callbacks.filter (fun p => decide (p ≠ (cb, dataPtr))) }

/-- TextBuffer::default (text.rs lines 17-26): allocates a fresh buffer. -/
def TextBuffer.default : TextBuffer :=
  Fl_Text_Buffer_new

/-- TextBuffer::set_text (text.rs lines 43-49): converts through
CString::new(txt).unwrap() — panicking (none) on interior NUL — then
forwards to the toolkit. -/
def TextBuffer.set_text (b : TextBuffer) (txt : List Char) : Option TextBuffer :=
  match cstringNew txt with
  | none => none
  | some t => some (Fl_Text_Buffer_set_text b t)

/-- TextBuffer::text (text.rs lines 51-60): reads the toolkit's C string
back into a host string. -/
def TextBuffer.text (b : TextBuffer) : List Char :=
  cstringRead (Fl_Text_Buffer_text b)

/-- TextBuffer::length (text.rs lines 68-71). -/
def TextBuffer.length (b : TextBuffer) : Nat :=
  Fl_Text_Buffer_length b

/-- TextBuffer::remove (text.rs lines 73-86): forwards to the toolkit. -/
def TextBuffer.remove (b : TextBuffer) (st en : Nat) : TextBuffer :=
  Fl_Text_Buffer_remove b st en

/-- TextBuffer::insert (text.rs lines 112-120): CString conversion with
unwrap (panic on interior NUL), then forwards to the toolkit. -/
def TextBuffer.insert (b : TextBuffer) (pos : Nat) (s : List Char) : Option TextBuffer :=
  match cstringNew s with
  | none => none
  | some t => some (Fl_Text_Buffer_insert b pos t)

/-- TextBuffer::replace (text.rs lines 122-134): CString conversion with
unwrap (panic on interior NUL), then forwards to the toolkit. -/
def TextBuffer.replace (b : TextBuffer) (st en : Nat) (s : List Char) : Option TextBuffer :=
  match cstringNew s with
  | none => none
  | some t => some (Fl_Text_Buffer_replace b st en t)

/-- TextBuffer::copy (text.rs lines 136-159): copies from the source
buffer into self, passing (start, end, to) through to the toolkit in that
order. -/
def TextBuffer.copy (self src : TextBuffer) (st en toPos : Nat) : TextBuffer :=
  Fl_Text_Buffer_copy self src st en toPos

/-- impl Clone for TextBuffer (text.rs lines 452-458): builds a default
buffer temp and calls temp.copy(self, 0, 0, self.length()) — note the
argument order actually written in the source. -/
def TextBuffer.clone (b : TextBuffer) : TextBuffer :=
  TextBuffer.copy TextBuffer.default b 0 0 (TextBuffer.length b)

/-- TextBuffer::select (text.rs lines 205-216). -/
def TextBuffer.select (b : TextBuffer) (st en : Nat) : TextBuffer :=
  Fl_Text_Buffer_select b st en

/-- TextBuffer::unselect (text.rs lines 228-231). -/
def TextBuffer.unselect (b : TextBuffer) : TextBuffer :=
  Fl_Text_Buffer_unselect b

/-- TextBuffer::selection_position (text.rs lines 233-246): builds two
NULL out-pointers, calls the primitive with them, and on a nonzero return
dereferences both pointers.  The outer Option models the process: none
means the call crashed (null-pointer write or read). -/
def TextBuffer.selection_position (b : TextBuffer) : Option (Option (Nat × Nat)) :=
  match Fl_Text_Buffer_selection_position b CPtr.nullPtr CPtr.nullPtr with
  | none => none
  | some (ret, ps', pe') =>
    if ret ≠ 0 then
      match readCell ps', readCell pe' with
      | some s, some e => some (some (s, e))
      | _, _ => none
    else some none

/-- Modelled from the spec: the crate's error taxonomy (the FltkError and
FltkErrorKind types live in the crate's prelude, which is not under src/):
internal kinds ResourceNotFound, UndoError, InvalidArgument, plus a
free-form Unknown message and the NUL-conversion error produced by the
question-mark operator on CString::new. -/
inductive FltkErrorKind where
  | ResourceNotFound : FltkErrorKind
  | UndoError : FltkErrorKind
  | InvalidArgument : FltkErrorKind
deriving Repr, DecidableEq

/-- Modelled from the spec: the crate's error type (see FltkErrorKind). -/
inductive FltkError where
  | Internal (kind : FltkErrorKind) : FltkError
  | Unknown (msg : String) : FltkError
  | NulError : FltkError
deriving Repr, DecidableEq

deriving instance DecidableEq for Except

/-- TextBuffer::undo (text.rs lines 161-169): calls the toolkit primitive
and maps a 0 return to Err(FltkError::Unknown("Failed to undo")), any
other return to Ok(()). -/
def TextBuffer.undo (b : TextBuffer) : Except FltkError Unit × TextBuffer :=
  match Fl_Text_Buffer_undo b with
  | (0, b') => (Except.error (FltkError.Unknown "Failed to undo"), b')
  | (_ + 1, b') => (Except.ok (), b')

/-- TextBuffer::can_undo (text.rs lines 171-174). -/
def TextBuffer.can_undo (b : TextBuffer) (flag : Bool) : TextBuffer :=
  Fl_Text_Buffer_canUndo b flag

/-- A file-system path as the Rust wrapper observes it: whether the path
exists on disk (path.exists()) and its name as a host string when the
name is valid UTF-8 (path.to_str(), none otherwise). -/
structure SysPath where
  onDisk : Bool
  utf8 : Option (List Char)
deriving Repr, DecidableEq

/-- TextBuffer::load_file (text.rs lines 176-189): returns
ResourceNotFound without touching the buffer when the path does not
exist; otherwise converts the path with to_str().unwrap() — panicking
(none) on a non-UTF-8 name — then through CString::new with the
question-mark operator, and finally maps the toolkit loader's 0 return to
ResourceNotFound. -/
def TextBuffer.load_file (b : TextBuffer) (p : SysPath)
    (fs : List Char → Option (List Char)) :
    Option (Except FltkError Unit × TextBuffer) :=
  if p.onDisk = false then
    some (Except.error (FltkError.Internal FltkErrorKind.ResourceNotFound), b)
  else
    match p.utf8 with
    | none => none
    | some pathStr =>
      match cstringNew pathStr with
      | none => some (Except.error FltkError.NulError, b)
      | some cpath =>
        match Fl_Text_Buffer_loadfile b cpath fs with
        | (0, b') =>
          some (Except.error (FltkError.Internal FltkErrorKind.ResourceNotFound), b')
        | (_ + 1, b') => some (Except.ok (), b')

/-- Address of the callback shim defined inside add_modify_callback
(text.rs lines 387-408): a function item distinct from the one inside
remove_modify_callback. -/
def shimAddId : Nat := 0

/-- Address of the callback shim defined inside remove_modify_callback
(text.rs lines 419-440). -/
def shimRemoveId : Nat := 1

/-- TextBuffer::add_modify_callback (text.rs lines 384-414): boxes the
closure with Box::into_raw (a fresh allocation, modelled by the explicit
allocation counter) and registers the (shim, data) pair with the toolkit.
Returns the new buffer state and the advanced allocation counter. -/
def TextBuffer.add_modify_callback (b : TextBuffer) (alloc : Nat) : TextBuffer × Nat :=
  (Fl_Text_Buffer_add_modify_callback b shimAddId alloc, alloc + 1)

/-- TextBuffer::remove_modify_callback (text.rs lines 416-446): boxes the
closure argument again with Box::into_raw — another fresh allocation, so
the data pointer handed to the toolkit is never the pointer that was
registered — and asks the toolkit to remove that (shim, data) pair. -/
def TextBuffer.remove_modify_callback (b : TextBuffer) (alloc : Nat) : TextBuffer × Nat :=
  (Fl_Text_Buffer_remove_modify_callback b shimRemoveId alloc, alloc + 1)

/-- Whether the source declares the auto-trait implementations that expose
a type for cross-thread transfer (Send) and sharing (Sync). -/
structure AutoTraitImpls where
  sendDeclared : Bool
  syncDeclared : Bool
deriving Repr, DecidableEq

/-- text.rs lines 449-450: the source declares both
unsafe impl Sync for TextBuffer and unsafe impl Send for TextBuffer. -/
def textBufferThreadImpls : AutoTraitImpls :=
  { sendDeclared := true, syncDeclared := true }

/-- The content of an optional buffer result (none propagates a panic). -/
def contentVal (o : Option TextBuffer) : Option (List Char) :=
  Option.map TextBuffer.content o

/-- The text() view of an optional buffer result. -/
def textVal (o : Option TextBuffer) : Option (List Char) :=
  Option.map TextBuffer.text o

/-- The notification log of an optional buffer result. -/
def firedVal (o : Option TextBuffer) : Option (List (ModifyEvent × List (Nat × Nat))) :=
  Option.map TextBuffer.fired o

/-- The number of fired notifications of an optional buffer result. -/
def firedCount (o : Option TextBuffer) : Option Nat :=
  Option.map (fun b => b.fired.length) o

/-- A buffer holding "hello". -/
def helloBuf : TextBuffer :=
  { TextBuffer.default with content := ['h', 'e', 'l', 'l', 'o'] }

/-- A buffer holding "ab". -/
def abBuf : TextBuffer :=
  { TextBuffer.default with content := ['a', 'b'] }

/-- The buffer "hello" after select(1, 3). -/
def helloSelBuf : TextBuffer :=
  TextBuffer.select helloBuf 1 3

/-- A buffer with undo enabled and a saved undo state "hi". -/
def undoReadyBuf : TextBuffer :=
  { TextBuffer.default with content := ['x'], undoEnabled := true,
                            undoState := some ['h', 'i'] }

/-- A buffer with undo enabled but no saved undo state. -/
def undoEmptyBuf : TextBuffer :=
  { TextBuffer.default with undoEnabled := true }

/-- A path that does not exist on disk. -/
def missingPath : SysPath :=
  { onDisk := false, utf8 := some ['f'] }

/-- A path that exists on disk but whose name is not valid UTF-8. -/
def nonUtf8Path : SysPath :=
  { onDisk := true, utf8 := none }

/-- A file system with no readable files. -/
def emptyDisk : List Char → Option (List Char) :=
  fun _ => none

/-- A fresh buffer after add_modify_callback followed by
remove_modify_callback for the same listener (allocation counter starting
at 0, as the two Box::into_raw calls produce distinct fresh pointers). -/
def addThenRemoveBuf : TextBuffer :=
  (TextBuffer.remove_modify_callback
    (TextBuffer.add_modify_callback TextBuffer.default 0).1
    (TextBuffer.add_modify_callback TextBuffer.default 0).2).1

/-- Firing a notification does not change the content. -/
@[simp] theorem fireModify_content (b : TextBuffer) (e : ModifyEvent) :
    (fireModify b e).content = b.content := rfl

/-- Firing a notification appends the event, paired with the listener
list, to the log. -/
@[simp] theorem fireModify_fired (b : TextBuffer) (e : ModifyEvent) :
    (fireModify b e).fired = b.fired ++ [(e, b.callbacks)] := rfl

/-- Firing a notification does not change the listener registrations. -/
@[simp] theorem fireModify_callbacks (b : TextBuffer) (e : ModifyEvent) :
    (fireModify b e).callbacks = b.callbacks := rfl

/-- CString conversion succeeds on NUL-free strings. -/
theorem cstringNew_eq_some {s : List Char} (h : nulChar ∉ s) : cstringNew s = some s := by
  simp [cstringNew, h]

/-- Reading back a NUL-free string through the C string layer is the identity. -/
theorem cstringRead_eq_self {s : List Char} (h : nulChar ∉ s) : cstringRead s = s := by
  refine List.takeWhile_eq_self_iff.mpr ?_
  intro a ha
  simp only [decide_eq_true_eq]
  rintro rfl
  exact h ha

/-- Taking the length of the left part of an append returns that part. -/
theorem take_append_of_length {l d : List Char} {n : Nat} (h : l.length = n) :
    (l ++ d).take n = l := by
  subst h; exact List.take_left l d

/-- Dropping the length of the left part of an append returns the right part. -/
theorem drop_append_of_length {l d : List Char} {n : Nat} (h : l.length = n) :
    (l ++ d).drop n = d := by
  subst h; exact List.drop_left l d

/-- Claim C1 (code bug evaluation): on a buffer holding "hello", Clone as
written in the source — temp.copy(self, 0, 0, self.length()) — copies the
empty source range [0, 0) to position 5 of the fresh empty buffer, so the
clone's content is empty and differs from the source's "hello"; all the
clone receives is one zero-length notification. -/
theorem C1_clone_copies_empty_range :
    TextBuffer.clone helloBuf = fireModify TextBuffer.default ⟨5, 0, 0, 0, []⟩ ∧
    TextBuffer.text (TextBuffer.clone helloBuf) = [] ∧
    TextBuffer.text helloBuf = ['h', 'e', 'l', 'l', 'o'] := by
  decide

/-- Claim C2 (code bug evaluation): on "hello" after select(1, 3) the
selection really is (1, 3), yet selection_position crashes (none) because
the wrapper hands the toolkit two null out-pointers and then dereferences
them; after unselect the call does return None as claimed. -/
theorem C2_selection_position_null_out_params :
    helloSelBuf.selection = some (1, 3) ∧
    TextBuffer.selection_position helloSelBuf = none ∧
    TextBuffer.selection_position (TextBuffer.unselect helloSelBuf) = some none := by
  decide

/-- Claim C3 (counterexample): with undo enabled but no undo state, undo()
returns FltkError::Unknown("Failed to undo"), not an error classified as
UndoError as the claim states. -/
theorem C3_undo_unknown_not_undoerror :
    (TextBuffer.undo undoEmptyBuf).1 = Except.error (FltkError.Unknown "Failed to undo") ∧
    ¬ (TextBuffer.undo undoEmptyBuf).1 =
        Except.error (FltkError.Internal FltkErrorKind.UndoError) := by
  decide

/-- Claim C3 (amended): undo() returns the error
FltkError::Unknown("Failed to undo") exactly when undo is disabled or no
undo state is available; otherwise it returns Ok and reverts the buffer
to the saved (most recently overwritten) content. -/
theorem C3_undo_error_classification (b : TextBuffer) :
    ((TextBuffer.undo b).1 = Except.error (FltkError.Unknown "Failed to undo") ↔
      (b.undoEnabled = false ∨ b.undoState = none)) ∧
    (∀ c, b.undoEnabled = true → b.undoState = some c →
      TextBuffer.undo b =
        (Except.ok (), { b with content := c, undoState := some b.content })) := by
  cases hE : b.undoEnabled with
  | false =>
    refine ⟨?_, ?_⟩
    · simp [TextBuffer.undo, Fl_Text_Buffer_undo, hE]
    · intro c h1 _
      exact absurd h1 (by simp [hE])
  | true =>
    cases hS : b.undoState with
    | none =>
      refine ⟨?_, ?_⟩
      · simp [TextBuffer.undo, Fl_Text_Buffer_undo, hE, hS]
      · intro c _ h2
        cases h2
    | some c0 =>
      refine ⟨?_, ?_⟩
      · simp [TextBuffer.undo, Fl_Text_Buffer_undo, hE, hS]
      · intro c _ h2
        injection h2 with h2
        subst h2
        simp [TextBuffer.undo, Fl_Text_Buffer_undo, hE, hS]

/-- Claim C3 (witness): on a concrete buffer "x" with undo enabled and
saved state "hi", undo() succeeds and restores "hi". -/
theorem C3_undo_witness :
    TextBuffer.undo undoReadyBuf =
      (Except.ok (), { undoReadyBuf with content := ['h', 'i'], undoState := some ['x'] }) :=
  (C3_undo_error_classification undoReadyBuf).2 ['h', 'i'] rfl rfl

/-- Claim C4 (code bug evaluation): after add_modify_callback followed by
remove_modify_callback for the same listener, the listener is still
registered — the removal call re-boxes the closure, so the (shim, data)
pair it hands the toolkit never matches the registered pair — and a
subsequent set_text still delivers its mutation event to that listener. -/
theorem C4_remove_modify_callback_ineffective :
    addThenRemoveBuf.callbacks = [(shimAddId, 0)] ∧
    (TextBuffer.set_text addThenRemoveBuf ['x']).map (fun b => b.fired.map Prod.snd) =
      some [[(shimAddId, 0)]] := by
  decide

/-- Claim C5: for every path that does not exist on disk, load_file
returns the ResourceNotFound error and returns the buffer unchanged. -/
theorem C5_load_file_missing_path (b : TextBuffer) (p : SysPath)
    (fs : List Char → Option (List Char)) (h : p.onDisk = false) :
    TextBuffer.load_file b p fs =
      some (Except.error (FltkError.Internal FltkErrorKind.ResourceNotFound), b) := by
  simp [TextBuffer.load_file, h]

/-- Claim C5 (witness): on the concrete missing path, load_file on the
"hello" buffer returns ResourceNotFound and the buffer is unchanged. -/
theorem C5_load_file_missing_path_witness :
    TextBuffer.load_file helloBuf missingPath emptyDisk =
      some (Except.error (FltkError.Internal FltkErrorKind.ResourceNotFound), helloBuf) :=
  C5_load_file_missing_path helloBuf missingPath emptyDisk rfl

/-- Claim C6 (counterexample): set_text does have an input constraint — on
the string "a\x00" the CString conversion's unwrap panics (none), so no
replacement happens and a following text() cannot return that string. -/
theorem C6_set_text_nul_cex :
    textVal (TextBuffer.set_text TextBuffer.default ['a', nulChar]) ≠
      some ['a', nulChar] := by
  decide

/-- Claim C6 (amended): for every string without an interior NUL byte,
set_text replaces the entire content (a following text() returns exactly
that string) and fires the modify listeners once with a full-range change
(everything deleted, the new string inserted at position 0). -/
theorem C6_set_text_replaces_content (b : TextBuffer) (s : List Char)
    (h : nulChar ∉ s) :
    textVal (TextBuffer.set_text b s) = some s ∧
    firedVal (TextBuffer.set_text b s) =
      some (b.fired ++ [(⟨0, s.length, b.content.length, 0, b.content⟩, b.callbacks)]) := by
  have hcs := cstringNew_eq_some h
  constructor
  · simp only [TextBuffer.set_text, hcs, textVal, Option.map_some', TextBuffer.text,
               Fl_Text_Buffer_text, Fl_Text_Buffer_set_text, fireModify_content]
    exact congrArg some (cstringRead_eq_self h)
  · simp [TextBuffer.set_text, hcs, firedVal, Fl_Text_Buffer_set_text, fireModify]

/-- Claim C6 (witness): setting "hi" on the "ab" buffer yields text "hi"
and one full-range notification (2 deleted, "hi" inserted at 0). -/
theorem C6_set_text_witness :
    textVal (TextBuffer.set_text abBuf ['h', 'i']) = some ['h', 'i'] ∧
    firedVal (TextBuffer.set_text abBuf ['h', 'i']) =
      some [(⟨0, 2, 2, 0, ['a', 'b']⟩, [])] :=
  C6_set_text_replaces_content abBuf ['h', 'i'] (by decide)

/-- Claim C7 (counterexample): for the string "x\x00" the claim fails —
replace panics on the CString conversion before mutating or notifying, so
there is no resulting buffer with exactly one new listener notification. -/
theorem C7_replace_nul_cex :
    ¬ ∃ br : TextBuffer, TextBuffer.replace abBuf 0 1 ['x', nulChar] = some br ∧
        br.fired.length = abBuf.fired.length + 1 := by
  rintro ⟨br, hsome, -⟩
  have h0 : TextBuffer.replace abBuf 0 1 ['x', nulChar] = none := by decide
  rw [h0] at hsome
  exact Option.noConfusion hsome

/-- Claim C7 (amended): for every range 0 <= start <= end <= length and
every string without an interior NUL byte, replace(start, end, s) leaves
the content exactly as remove(start, end) followed by insert(start, s)
would, but fires one listener notification where the sequence fires two. -/
theorem C7_replace_equals_remove_insert (b : TextBuffer) (st en : Nat) (s : List Char)
    (h1 : st ≤ en) (h2 : en ≤ b.content.length) (h3 : nulChar ∉ s) :
    contentVal (TextBuffer.replace b st en s) =
      contentVal (TextBuffer.insert (TextBuffer.remove b st en) st s) ∧
    firedCount (TextBuffer.replace b st en s) = some (b.fired.length + 1) ∧
    firedCount (TextBuffer.insert (TextBuffer.remove b st en) st s) =
      some (b.fired.length + 2) := by
  have hcs := cstringNew_eq_some h3
  have hst : st ≤ b.content.length := le_trans h1 h2
  have hlen : (b.content.take st).length = st := by
    rw [List.length_take, min_eq_left hst]
  refine ⟨?_, ?_, ?_⟩
  · simp only [TextBuffer.replace, TextBuffer.insert, TextBuffer.remove, hcs,
      Fl_Text_Buffer_replace, Fl_Text_Buffer_insert, Fl_Text_Buffer_remove,
      contentVal, Option.map_some', fireModify_content]
    rw [take_append_of_length hlen, drop_append_of_length hlen]
  · simp [TextBuffer.replace, hcs, firedCount, Fl_Text_Buffer_replace, fireModify]
  · simp [TextBuffer.insert, TextBuffer.remove, hcs, firedCount,
      Fl_Text_Buffer_insert, Fl_Text_Buffer_remove, fireModify]

/-- Claim C7 (witness): on the "ab" buffer, replace(0, 1, "z") and
remove(0, 1) followed by insert(0, "z") produce the same content, with
one versus two notifications. -/
theorem C7_replace_witness :
    contentVal (TextBuffer.replace abBuf 0 1 ['z']) =
      contentVal (TextBuffer.insert (TextBuffer.remove abBuf 0 1) 0 ['z']) ∧
    firedCount (TextBuffer.replace abBuf 0 1 ['z']) = some 1 ∧
    firedCount (TextBuffer.insert (TextBuffer.remove abBuf 0 1) 0 ['z']) = some 2 :=
  C7_replace_equals_remove_insert abBuf 0 1 ['z'] (by decide) (by decide) (by decide)

/-- Claim C8 (counterexample): for the string "x\x00" the round trip
fails — insert(1, "x\x00") on "ab" panics on the CString conversion
(none), so the insert-then-remove sequence does not restore "ab". -/
theorem C8_insert_nul_cex :
    (TextBuffer.insert abBuf 1 ['x', nulChar]).map
        (fun bi => (TextBuffer.remove bi 1 (1 + 2)).content) ≠ some abBuf.content := by
  decide

/-- Claim C8 (amended): for every position 0 <= pos <= length and every
string without an interior NUL byte, insert(pos, s) followed by
remove(pos, pos + len(s)) restores the original buffer content. -/
theorem C8_insert_remove_round_trip (b : TextBuffer) (pos : Nat) (s : List Char)
    (h1 : pos ≤ b.content.length) (h2 : nulChar ∉ s) :
    (TextBuffer.insert b pos s).map
        (fun bi => (TextBuffer.remove bi pos (pos + s.length)).content) =
      some b.content := by
  have hcs := cstringNew_eq_some h2
  have hlen : (b.content.take pos).length = pos := by
    rw [List.length_take, min_eq_left h1]
  have hlen2 : (b.content.take pos ++ s).length = pos + s.length := by
    rw [List.length_append, hlen]
  simp only [TextBuffer.insert, hcs, Option.map_some', TextBuffer.remove,
    Fl_Text_Buffer_insert, Fl_Text_Buffer_remove, fireModify_content]
  have hX : ((b.content.take pos ++ s) ++ b.content.drop pos).take pos =
      b.content.take pos := by
    rw [List.append_assoc]
    exact take_append_of_length hlen
  have hY : ((b.content.take pos ++ s) ++ b.content.drop pos).drop (pos + s.length) =
      b.content.drop pos :=
    drop_append_of_length hlen2
  rw [show b.content.take pos ++ s ++ b.content.drop pos =
        (b.content.take pos ++ s) ++ b.content.drop pos from rfl,
      hX, hY, List.take_append_drop]

/-- Claim C8 (witness): inserting "z" at position 1 of "ab" and removing
the range [1, 2) restores "ab". -/
theorem C8_round_trip_witness :
    (TextBuffer.insert abBuf 1 ['z']).map
        (fun bi => (TextBuffer.remove bi 1 (1 + 1)).content) = some ['a', 'b'] :=
  C8_insert_remove_round_trip abBuf 1 ['z'] (by decide) (by decide)

/-- Claim C9 (counterexample): it is false that the source declares
neither thread-sharing impl for TextBuffer — text.rs lines 449-450
declare both. -/
theorem C9_not_shareable_cex :
    ¬ (textBufferThreadImpls.sendDeclared = false ∧
       textBufferThreadImpls.syncDeclared = false) := by
  decide

/-- Claim C9 (amended): TextBuffer is exposed as thread-shareable — the
source declares unsafe impl Send and unsafe impl Sync for it — so
concurrent use is not disallowed by construction (nor mediated at
runtime). -/
theorem C9_send_sync_exposed :
    textBufferThreadImpls.sendDeclared = true ∧
    textBufferThreadImpls.syncDeclared = true := by
  decide

/-- Claim C10: for every path that exists on disk but whose name is not
valid UTF-8, load_file panics — the unwrap on the path-to-string
conversion fails — instead of returning a recoverable error. -/
theorem C10_load_file_non_utf8_panics (b : TextBuffer) (p : SysPath)
    (fs : List Char → Option (List Char)) (h1 : p.onDisk = true) (h2 : p.utf8 = none) :
    TextBuffer.load_file b p fs = none := by
  simp [TextBuffer.load_file, h1, h2]

/-- Claim C10 (witness): on the concrete existing non-UTF-8 path,
load_file on the "hello" buffer panics (none). -/
theorem C10_load_file_non_utf8_witness :
    TextBuffer.load_file helloBuf nonUtf8Path emptyDisk = none :=
  C10_load_file_non_utf8_panics helloBuf nonUtf8Path emptyDisk rfl rfl

end Fltk
